import Mathlib

/-!
Verification of the upcall layer of the Rust task runtime
(`src/rt/rust_upcall.cpp`): the fixed set of entry points that
compiler-generated code invokes to obtain runtime services — memory
allocation, failure signaling, and unwinding support — while running on a
segmented guest stack distinct from the platform's native (C) stack.

The upcall entry points themselves are translated directly from the source.
External collaborators that the source file only calls into (the process-wide
kernel allocator, the task's boxed region, `rust_task::fail`, the stack
growth bookkeeping, the debug tracker) are modelled from the specification;
each such definition carries a doc comment starting `Modelled from the
spec:`.

Pointers are modelled as natural numbers (0 plays the role of the null
pointer in header link fields); memory is an association list from pointer
to allocation record.  A `switch_count` field counts the stack switches an
operation performs, so that "performs no stack switch" is a provable
statement.
-/

namespace RustUpcall

/-- Type descriptor: the two fields the core reads (`size` and `align`);
all other fields are opaque to the upcall layer. -/
structure type_desc where
  size : Nat
  align : Nat

/-- Boxed object header prepended to every heap allocation: a signed
reference count (sentinel −1 means "not reference counted", used by
exchange-heap allocations), a pointer to the type descriptor (`none` models
the null pointer), and the two intrusive list links (`0` models null). -/
structure rust_opaque_box where
  ref_count : Int
  td : Option type_desc
  prev : Nat
  next : Nat

/-- A freshly zero-initialized header, as produced by a calloc-style
allocation: every field zero / null. -/
def zero_box : rust_opaque_box :=
  { ref_count := 0, td := none, prev := 0, next := 0 }

/-- One allocation as recorded by an allocator: the total footprint that was
requested for it, and the header stored at the returned pointer. -/
structure KernelAlloc where
  footprint : Nat
  box : rust_opaque_box

/-- Look up the allocation record stored at pointer `p` (first match). -/
def lookupAlloc : List (Nat × KernelAlloc) → Nat → Option KernelAlloc
  | [], _ => none
  | e :: rest, p => if e.1 = p then some e.2 else lookupAlloc rest p

/-- Overwrite the header stored at pointer `p` (first match), keeping the
recorded footprint; models writing the header fields through the pointer. -/
def setBoxFirst : List (Nat × KernelAlloc) → Nat → rust_opaque_box →
    List (Nat × KernelAlloc)
  | [], _, _ => []
  | e :: rest, p, b =>
    if e.1 = p then (e.1, ⟨e.2.footprint, b⟩) :: rest
    else e :: setBoxFirst rest p b

/-- Remove the allocation record at pointer `p` (first match); models
releasing the memory behind the pointer. -/
def removeFirst : List (Nat × KernelAlloc) → Nat → List (Nat × KernelAlloc)
  | [], _ => []
  | e :: rest, p => if e.1 = p then rest else e :: removeFirst rest p

/-- Round `n` up to the next multiple of `alignment`. -/
def align_to (n alignment : Nat) : Nat :=
  if alignment = 0 then n else ((n + alignment - 1) / alignment) * alignment

/-- Header overhead in abstract units: the four fields of
`rust_opaque_box` (ref count, type descriptor, prev, next). -/
def box_header_size : Nat := 4

/-- Modelled from the spec: `get_box_size` (declared outside this file)
computes the total footprint for an allocation from the type descriptor's
declared size and alignment plus header overhead, padded so the body
pointer after the header satisfies the requested alignment. -/
def get_box_size (body_size : Nat) (body_align : Nat) : Nat :=
  align_to box_header_size body_align + body_size

/-- The process-wide kernel allocator: a fresh-pointer counter and the set
of live allocations. -/
structure rust_kernel where
  next_ptr : Nat
  mem : List (Nat × KernelAlloc)

/-- Modelled from the spec: the process-wide allocator's
`allocate_zeroed(size)`: returns a fresh pointer to zero-initialized memory
of the requested footprint. -/
def rust_kernel.calloc (k : rust_kernel) (size : Nat) : rust_kernel × Nat :=
  ({ next_ptr := k.next_ptr + 1,
     mem := (k.next_ptr, ⟨size, zero_box⟩) :: k.mem }, k.next_ptr)

/-- Modelled from the spec: the process-wide allocator's
`release(pointer)`: returns the memory at `p` to the allocator.  No header
field is read or checked. -/
def rust_kernel.free (k : rust_kernel) (p : Nat) : rust_kernel :=
  { k with mem := removeFirst k.mem p }

/-- Write the header stored at `p` in kernel memory. -/
def rust_kernel.setBox (k : rust_kernel) (p : Nat) (b : rust_opaque_box) :
    rust_kernel :=
  { k with mem := setBoxFirst k.mem p b }

/-- The task-local boxed heap: backing memory, and the task's
live-allocation list (the intrusive list of tracked headers, modelled as
the list of their pointers, most recent first). -/
structure boxed_region where
  next_ptr : Nat
  mem : List (Nat × KernelAlloc)
  live_allocs : List Nat

/-- Modelled from the spec: `task.local_heap.allocate(type_desc, size)`:
computes the total footprint from size and alignment plus header overhead,
obtains zero-initialized memory, installs a boxed header (a non-negative
tracked ref count, the type descriptor, links maintained by the heap),
inserts it into the task's live-allocation list and returns the pointer. -/
def boxed_region.calloc (r : boxed_region) (td : type_desc) (size : Nat) :
    boxed_region × Nat :=
  let p := r.next_ptr
  let header : rust_opaque_box :=
    { ref_count := 1, td := some td, prev := 0, next := 0 }
  ({ next_ptr := p + 1,
     mem := (p, ⟨get_box_size size td.align, header⟩) :: r.mem,
     live_allocs := p :: r.live_allocs }, p)

/-- Modelled from the spec: `task.local_heap.free(header)`: unlinks the
header from the live-allocation list and releases its memory.  No check of
the ref count or of the pointer's provenance is performed. -/
def boxed_region.free (r : boxed_region) (p : Nat) : boxed_region :=
  { r with mem := removeFirst r.mem p, live_allocs := r.live_allocs.erase p }

/-- Write the header stored at `p` in the boxed region's memory. -/
def boxed_region.setBox (r : boxed_region) (p : Nat) (b : rust_opaque_box) :
    boxed_region :=
  { r with mem := setBoxFirst r.mem p b }

/-- Control-flow outcome of an upcall as seen by generated code: it either
returns normally or diverges into the task's unwind path. -/
inductive UnwindFlow where
  | returnsNormally
  | divergesUnwind

/-- One debug-tracker event. -/
inductive TrackEvent where
  | track (ptr : Nat)
  | untrack (ptr : Nat)

/-- The task state the upcall layer touches: its boxed heap, its failure
status and recorded failure site, which stack it is currently on, the chain
of guest-stack frame bases (most recent first), and a fresh-address counter
for new stack segments. -/
structure rust_task where
  boxed : boxed_region
  failing : Bool
  failure_record : Option (String × String × Nat)
  on_rust_stack : Bool
  frames : List Nat
  next_seg_base : Nat

/-- Modelled from the spec: `rust_task::fail(expr, file, line)` marks the
task as fatally failed, records the originating expression, file and line,
and begins the shutdown path — control does not return normally to the
generated code. -/
def rust_task.fail (t : rust_task) (expr file : String) (line : Nat) :
    rust_task × UnwindFlow :=
  ({ t with failing := true, failure_record := some (expr, file, line) },
   UnwindFlow.divergesUnwind)

/-- Modelled from the spec: `rust_task::next_stack` (grow_stack) obtains a
stack segment sized to fit at least `stk_sz` plus the incoming argument
block described by `(args_addr, args_sz)`, relocates that block onto the
new segment, and returns the new frame base. -/
def rust_task.next_stack (t : rust_task) (stk_sz : Nat) (args_addr : Nat)
    (args_sz : Nat) : rust_task × Nat :=
  let base := t.next_seg_base
  ({ t with frames := base :: t.frames,
            next_seg_base := t.next_seg_base + stk_sz + args_sz + 1 }, base)

/-- Modelled from the spec: `rust_task::prev_stack` (shrink_stack) retires
the most recently acquired segment and restores the previous one as
current. -/
def rust_task.prev_stack (t : rust_task) : rust_task :=
  { t with frames := t.frames.tail }

/-- The runtime state an upcall operates on: the current task, the
process-wide kernel allocator, the debug tracker's event log (most recent
first), and a count of stack switches performed so far. -/
structure RuntimeState where
  task : rust_task
  kernel : rust_kernel
  tracker_events : List TrackEvent
  switch_count : Nat

/-- The `UPCALL_SWITCH_STACK` trampoline: switch to the task's C stack,
run the handler over the argument record, switch back.  Modelled from the
spec: `switch_and_call` is transparent apart from what the handler mutates,
so it is the handler application plus one recorded stack switch. -/
def UPCALL_SWITCH_STACK {β : Type} (handler : RuntimeState → RuntimeState × β)
    (s : RuntimeState) : RuntimeState × β :=
  handler { s with switch_count := s.switch_count + 1 }

/-- A plain stack switch without the record-based dispatch, as performed by
`rust_task::call_on_c_stack` / `call_on_rust_stack`. -/
def bump_switch (s : RuntimeState) : RuntimeState :=
  { s with switch_count := s.switch_count + 1 }

/-- Modelled from the spec: the debug tracker's `track(task, header)` hook;
the tracker records the event (it is the tracker's own business to be a
no-op when disabled). -/
def maybe_track_origin (s : RuntimeState) (p : Nat) : RuntimeState :=
  { s with tracker_events := TrackEvent.track p :: s.tracker_events }

/-- Modelled from the spec: the debug tracker's `untrack(task, pointer)`
hook. -/
def maybe_untrack_origin (s : RuntimeState) (p : Nat) : RuntimeState :=
  { s with tracker_events := TrackEvent.untrack p :: s.tracker_events }

/-! ## Boundary-crossing shim entry points -/

/-- Outcome of a boundary-crossing shim call: the invoked function returned
normally, the entry point aborted the process, or an exception propagated
past the entry point to its caller (never produced by the code). -/
inductive ShimResult where
  | returned (s : RuntimeState)
  | aborted
  | propagated (e : String)

/-- `upcall_call_shim_on_c_stack`: switches to the C stack and invokes the
function over its argument block; a propagating exception is caught and
turned into a hard abort (`assert(false)`). -/
def upcall_call_shim_on_c_stack (f : RuntimeState → Except String RuntimeState)
    (s : RuntimeState) : ShimResult :=
  match f (bump_switch s) with
  | Except.ok s1 => ShimResult.returned s1
  | Except.error _ => ShimResult.aborted

/-- `upcall_call_shim_on_rust_stack`: the opposite direction — starts on
the C stack and switches to the Rust stack; a propagating failure is caught
and turned into a hard abort. -/
def upcall_call_shim_on_rust_stack
    (f : RuntimeState → Except String RuntimeState) (s : RuntimeState) :
    ShimResult :=
  match f (bump_switch s) with
  | Except.ok s1 => ShimResult.returned s1
  | Except.error _ => ShimResult.aborted

/-! ## fail -/

/-- Argument record for the fail upcall (the task back-reference of the
source record is the state's task). -/
structure s_fail_args where
  expr : String
  file : String
  line : Nat

/-- Handler `upcall_s_fail`: runs on the C stack, calls
`task->fail(expr, file, line)`. -/
def upcall_s_fail (s : RuntimeState) (args : s_fail_args) :
    RuntimeState × UnwindFlow :=
  let r := s.task.fail args.expr args.file args.line
  ({ s with task := r.1 }, r.2)

/-- Entry point `upcall_fail`: builds the argument record and dispatches
the handler through the stack switch. -/
def upcall_fail (s : RuntimeState) (expr file : String) (line : Nat) :
    RuntimeState × UnwindFlow :=
  let args : s_fail_args := ⟨expr, file, line⟩
  UPCALL_SWITCH_STACK (fun t => upcall_s_fail t args) s

/-- Compatibility alias for `upcall_fail` (used by libcore/rt.rs to avoid a
naming conflict with autogenerated wrappers). -/
def rust_upcall_fail (s : RuntimeState) (expr file : String) (line : Nat) :
    RuntimeState × UnwindFlow :=
  upcall_fail s expr file line

/-! ## Exchange-heap allocate / free -/

/-- Argument record for exchange malloc. -/
structure s_exchange_malloc_args where
  retval : Nat
  td : type_desc
  size : Nat

/-- Handler `upcall_s_exchange_malloc`: computes the total box size,
callocs it from the kernel (process-wide) allocator, writes the header
fields (`ref_count = -1`, the type descriptor, null links) and stores the
pointer in the record's return slot. -/
def upcall_s_exchange_malloc (s : RuntimeState)
    (args : s_exchange_malloc_args) :
    RuntimeState × s_exchange_malloc_args :=
  let total_size := get_box_size args.size args.td.align
  let r := s.kernel.calloc total_size
  let header : rust_opaque_box :=
    { ref_count := -1, td := some args.td, prev := 0, next := 0 }
  ({ s with kernel := rust_kernel.setBox r.1 r.2 header },
   { args with retval := r.2 })

/-- Entry point `upcall_exchange_malloc`. -/
def upcall_exchange_malloc (s : RuntimeState) (td : type_desc) (size : Nat) :
    RuntimeState × Nat :=
  let args : s_exchange_malloc_args := { retval := 0, td := td, size := size }
  let r := UPCALL_SWITCH_STACK (fun t => upcall_s_exchange_malloc t args) s
  (r.1, r.2.retval)

/-- Compatibility alias for `upcall_exchange_malloc`. -/
def rust_upcall_exchange_malloc (s : RuntimeState) (td : type_desc)
    (size : Nat) : RuntimeState × Nat :=
  upcall_exchange_malloc s td size

/-- Argument record for exchange free. -/
structure s_exchange_free_args where
  ptr : Nat

/-- Handler `upcall_s_exchange_free`: passes the pointer unchanged to the
kernel allocator's release. -/
def upcall_s_exchange_free (s : RuntimeState) (args : s_exchange_free_args) :
    RuntimeState :=
  { s with kernel := s.kernel.free args.ptr }

/-- Entry point `upcall_exchange_free`. -/
def upcall_exchange_free (s : RuntimeState) (ptr : Nat) : RuntimeState :=
  let args : s_exchange_free_args := ⟨ptr⟩
  (UPCALL_SWITCH_STACK (fun t => (upcall_s_exchange_free t args, ())) s).1

/-- Compatibility alias for `upcall_exchange_free`. -/
def rust_upcall_exchange_free (s : RuntimeState) (ptr : Nat) : RuntimeState :=
  upcall_exchange_free s ptr

/-! ## Task-local allocate / free -/

/-- Argument record for task-local malloc. -/
structure s_malloc_args where
  retval : Nat
  td : type_desc
  size : Nat

/-- Handler `upcall_s_malloc`: allocates the box from the task's boxed
region, invokes the debug tracker's track hook on it, and stores the
pointer in the record's return slot. -/
def upcall_s_malloc (s : RuntimeState) (args : s_malloc_args) :
    RuntimeState × s_malloc_args :=
  let r := s.task.boxed.calloc args.td args.size
  let s1 := { s with task := { s.task with boxed := r.1 } }
  let s2 := maybe_track_origin s1 r.2
  (s2, { args with retval := r.2 })

/-- Entry point `upcall_malloc`. -/
def upcall_malloc (s : RuntimeState) (td : type_desc) (size : Nat) :
    RuntimeState × Nat :=
  let args : s_malloc_args := { retval := 0, td := td, size := size }
  let r := UPCALL_SWITCH_STACK (fun t => upcall_s_malloc t args) s
  (r.1, r.2.retval)

/-- Compatibility alias for `upcall_malloc`. -/
def rust_upcall_malloc (s : RuntimeState) (td : type_desc) (size : Nat) :
    RuntimeState × Nat :=
  upcall_malloc s td size

/-- Argument record for task-local free. -/
structure s_free_args where
  ptr : Nat

/-- Handler `upcall_s_free`: invokes the debug tracker's untrack hook on
the pointer and hands it to the task's boxed region. -/
def upcall_s_free (s : RuntimeState) (args : s_free_args) : RuntimeState :=
  let s1 := maybe_untrack_origin s args.ptr
  { s1 with task := { s1.task with boxed := s1.task.boxed.free args.ptr } }

/-- Entry point `upcall_free`. -/
def upcall_free (s : RuntimeState) (ptr : Nat) : RuntimeState :=
  let args : s_free_args := ⟨ptr⟩
  (UPCALL_SWITCH_STACK (fun t => (upcall_s_free t args, ())) s).1

/-- Compatibility alias for `upcall_free`. -/
def rust_upcall_free (s : RuntimeState) (ptr : Nat) : RuntimeState :=
  upcall_free s ptr

/-! ## Unimplemented debug hooks -/

/-- Termination outcome of an upcall that may abort the process. -/
inductive UpcallOutcome where
  | returned
  | aborted

/-- `upcall_validate_box`: aborts unconditionally (`abort()`); touches
nothing else. -/
def upcall_validate_box (s : RuntimeState) (ptr : Nat) :
    RuntimeState × UpcallOutcome :=
  (s, UpcallOutcome.aborted)

/-- `upcall_log_type`: aborts unconditionally (`abort()`); touches nothing
else. -/
def upcall_log_type (s : RuntimeState) (tydesc : Nat) (data : Nat)
    (level : Nat) : RuntimeState × UpcallOutcome :=
  (s, UpcallOutcome.aborted)

/-! ## Personality wrapper -/

/-- Argument record for the personality wrapper; `retval` is the return
slot, initialized to 0 at the entry point. -/
structure s_rust_personality_args where
  retval : Nat
  version : Nat
  actions : Nat
  exception_class : Nat
  ue_header : Nat
  context : Nat

/-- Handler `upcall_s_rust_personality`: invokes the native personality
routine (`__gxx_personality_v0`, here an arbitrary function `gxx` since it
is external to the runtime) on the record's inputs and writes its result
into the return slot. -/
def upcall_s_rust_personality (gxx : Nat → Nat → Nat → Nat → Nat → Nat)
    (args : s_rust_personality_args) : s_rust_personality_args :=
  { args with
    retval := gxx args.version args.actions args.exception_class
                args.ue_header args.context }

/-- Entry point `upcall_rust_personality`: if the task is on the Rust
(guest) stack, dispatch the handler through the stack switch; if already on
the C (native) stack, call the handler directly; return the record's return
slot. -/
def upcall_rust_personality (gxx : Nat → Nat → Nat → Nat → Nat → Nat)
    (s : RuntimeState) (version actions exception_class ue_header context :
    Nat) : RuntimeState × Nat :=
  let args : s_rust_personality_args :=
    ⟨0, version, actions, exception_class, ue_header, context⟩
  if s.task.on_rust_stack then
    let r := UPCALL_SWITCH_STACK
      (fun t => (t, upcall_s_rust_personality gxx args)) s
    (r.1, r.2.retval)
  else
    (s, (upcall_s_rust_personality gxx args).retval)

/-! ## Guest-stack growth entry points -/

/-- Entry point `upcall_new_stack`: grows the guest stack; no stack switch,
no record-based dispatch. -/
def upcall_new_stack (s : RuntimeState) (stk_sz : Nat) (args_addr : Nat)
    (args_sz : Nat) : RuntimeState × Nat :=
  let r := s.task.next_stack stk_sz args_addr args_sz
  ({ s with task := r.1 }, r.2)

/-- Entry point `upcall_del_stack`: shrinks the guest stack; no stack
switch, no record-based dispatch. -/
def upcall_del_stack (s : RuntimeState) : RuntimeState :=
  { s with task := s.task.prev_stack }

/-! ## Concrete states for witnesses and counterexamples -/

/-- A concrete type descriptor. -/
def td0 : type_desc := ⟨8, 8⟩

/-- A concrete initial runtime state: empty heaps, empty tracker log, task
on the guest stack, no failure. -/
def initState : RuntimeState :=
  { task := { boxed := ⟨0, [], []⟩, failing := false, failure_record := none,
              on_rust_stack := true, frames := [], next_seg_base := 0 },
    kernel := ⟨0, []⟩,
    tracker_events := [],
    switch_count := 0 }

/-! ## Helper lemmas -/

/-- Overwriting the header at `p` and then releasing `p` gives the same
memory as releasing `p` directly: release never looks at the header. -/
theorem removeFirst_setBoxFirst (l : List (Nat × KernelAlloc)) (p : Nat)
    (b : rust_opaque_box) :
    removeFirst (setBoxFirst l p b) p = removeFirst l p := by
  induction l with
  | nil => rfl
  | cons e rest ih =>
    by_cases h : e.1 = p
    · simp [setBoxFirst, removeFirst, h]
    · simp [setBoxFirst, removeFirst, h, ih]

/-! ## Claim theorems -/

/-- Claim C1: for every type descriptor and requested size, the
exchange-allocate upcall computes the total footprint from the requested
size and the descriptor's alignment plus header overhead, obtains
zero-initialized memory of that footprint from the process-wide allocator,
and returns a pointer to a header whose ref count is exactly −1, whose
type-descriptor field is the given descriptor, and whose prev and next
links are both null; the pointer is never added to the task's
live-allocation list. -/
theorem upcall_exchange_malloc_spec (s : RuntimeState) (td : type_desc)
    (size : Nat) :
    lookupAlloc (upcall_exchange_malloc s td size).1.kernel.mem
        (upcall_exchange_malloc s td size).2 =
      some ⟨get_box_size size td.align,
            { ref_count := -1, td := some td, prev := 0, next := 0 }⟩ ∧
    (upcall_exchange_malloc s td size).1.task.boxed.live_allocs =
      s.task.boxed.live_allocs := by
  constructor
  · simp [upcall_exchange_malloc, upcall_s_exchange_malloc,
      UPCALL_SWITCH_STACK, rust_kernel.calloc, rust_kernel.setBox,
      setBoxFirst, lookupAlloc]
  · rfl

/-- Claim C2: the personality wrapper returns exactly the result the native
personality routine produces on the given `(version, actions,
exception_class, exception_header, context)` inputs, whether it was entered
on the guest stack (one stack switch) or already on the native stack (no
switch); the two paths give identical results. -/
theorem upcall_rust_personality_spec (gxx : Nat → Nat → Nat → Nat → Nat → Nat)
    (s : RuntimeState)
    (version actions exception_class ue_header context : Nat) :
    (upcall_rust_personality gxx s version actions exception_class
        ue_header context).2 =
      gxx version actions exception_class ue_header context ∧
    (upcall_rust_personality gxx s version actions exception_class
        ue_header context).1.switch_count =
      (if s.task.on_rust_stack then s.switch_count + 1 else s.switch_count)
    := by
  cases hb : s.task.on_rust_stack <;>
    simp [upcall_rust_personality, UPCALL_SWITCH_STACK,
      upcall_s_rust_personality, hb]

/-- Claim C3: for every function and state, if the invoked function raises
a propagating failure, each boundary-crossing entry point converts it into
an immediate process abort; the exception never propagates past the entry
point to its caller. -/
theorem shim_entry_points_abort_on_exception
    (f g : RuntimeState → Except String RuntimeState) (s : RuntimeState)
    (e1 e2 : String) (hf : f (bump_switch s) = Except.error e1)
    (hg : g (bump_switch s) = Except.error e2) :
    upcall_call_shim_on_c_stack f s = ShimResult.aborted ∧
    upcall_call_shim_on_rust_stack g s = ShimResult.aborted ∧
    (∀ e, upcall_call_shim_on_c_stack f s ≠ ShimResult.propagated e) ∧
    (∀ e, upcall_call_shim_on_rust_stack g s ≠ ShimResult.propagated e) := by
  unfold upcall_call_shim_on_c_stack upcall_call_shim_on_rust_stack
  rw [hf, hg]
  simp

/-- Witness for claim C3: a function that always raises, invoked through
both entry points from a concrete state, yields an abort. -/
theorem shim_entry_points_abort_on_exception_witness :
    upcall_call_shim_on_c_stack (fun _ => Except.error "boom") initState =
      ShimResult.aborted ∧
    upcall_call_shim_on_rust_stack (fun _ => Except.error "boom") initState =
      ShimResult.aborted :=
  ⟨(shim_entry_points_abort_on_exception (fun _ => Except.error "boom")
      (fun _ => Except.error "boom") initState "boom" "boom" rfl rfl).1,
   (shim_entry_points_abort_on_exception (fun _ => Except.error "boom")
      (fun _ => Except.error "boom") initState "boom" "boom" rfl rfl).2.1⟩

/-- Claim C4: for every valid (type descriptor, size) pair and every state,
a task-local allocate followed immediately by a task-local free of the
returned header leaves the task's live-allocation list with exactly the
same count and membership it had before the allocate. -/
theorem malloc_then_free_restores_live_list (s : RuntimeState)
    (td : type_desc) (size : Nat) :
    (upcall_free (upcall_malloc s td size).1
        (upcall_malloc s td size).2).task.boxed.live_allocs =
      s.task.boxed.live_allocs ∧
    (upcall_free (upcall_malloc s td size).1
        (upcall_malloc s td size).2).task.boxed.live_allocs.length =
      s.task.boxed.live_allocs.length ∧
    ∀ p : Nat,
      p ∈ (upcall_free (upcall_malloc s td size).1
            (upcall_malloc s td size).2).task.boxed.live_allocs ↔
      p ∈ s.task.boxed.live_allocs := by
  have h : (upcall_free (upcall_malloc s td size).1
      (upcall_malloc s td size).2).task.boxed.live_allocs =
      s.task.boxed.live_allocs := by
    simp [upcall_malloc, upcall_free, upcall_s_malloc, upcall_s_free,
      UPCALL_SWITCH_STACK, boxed_region.calloc, boxed_region.free,
      maybe_track_origin, maybe_untrack_origin]
  exact ⟨h, by rw [h], fun p => by rw [h]⟩

/-- Claim C5: for every expression text, file name, and line number, the
fail upcall marks the current task as fatally failed, records that
expression, file, and line, and does not return normally to the generated
code that invoked it. -/
theorem upcall_fail_spec (s : RuntimeState) (expr file : String)
    (line : Nat) :
    (upcall_fail s expr file line).1.task.failing = true ∧
    (upcall_fail s expr file line).1.task.failure_record =
      some (expr, file, line) ∧
    (upcall_fail s expr file line).2 = UnwindFlow.divergesUnwind :=
  ⟨rfl, rfl, rfl⟩

/-- Claim C6 counterexample: at a concrete input the exchange-heap
allocate and free paths record no tracker event — starting from a state
with an empty tracker log, the log is still empty afterwards, so neither
invokes the track/untrack hook, contrary to the claim that every allocate
and free upcall (the exchange paths in particular) does so. -/
theorem exchange_paths_skip_tracker_counterexample :
    (upcall_exchange_malloc initState td0 8).1.tracker_events = [] ∧
    (upcall_exchange_free initState 0).tracker_events = [] :=
  ⟨rfl, rfl⟩

/-- Claim C6 (amended): the task-local allocate upcall invokes the debug
tracker's track hook on the new header and the task-local free upcall
invokes its untrack hook on the freed pointer, unconditionally; the
exchange-heap allocate and free paths invoke neither hook and leave the
tracker log unchanged. -/
theorem tracker_hooks_task_local_only (s : RuntimeState) (td : type_desc)
    (size : Nat) (p : Nat) :
    (upcall_malloc s td size).1.tracker_events =
      TrackEvent.track (upcall_malloc s td size).2 :: s.tracker_events ∧
    (upcall_free s p).tracker_events =
      TrackEvent.untrack p :: s.tracker_events ∧
    (upcall_exchange_malloc s td size).1.tracker_events =
      s.tracker_events ∧
    (upcall_exchange_free s p).tracker_events = s.tracker_events :=
  ⟨rfl, rfl, rfl, rfl⟩

/-- Claim C7: each compatibility-alias entry point produces exactly the
same result and side effects as the correspondingly named `upcall_*` entry
point on the same input. -/
theorem rust_upcall_aliases_spec (s : RuntimeState) (expr file : String)
    (line : Nat) (td : type_desc) (size : Nat) (p : Nat) :
    rust_upcall_fail s expr file line = upcall_fail s expr file line ∧
    rust_upcall_malloc s td size = upcall_malloc s td size ∧
    rust_upcall_exchange_malloc s td size =
      upcall_exchange_malloc s td size ∧
    rust_upcall_exchange_free s p = upcall_exchange_free s p ∧
    rust_upcall_free s p = upcall_free s p :=
  ⟨rfl, rfl, rfl, rfl, rfl⟩

/-- Claim C8: neither free path performs any runtime check of the
allocation-policy invariant.  Exchange free passes the pointer unchanged to
the process-wide allocator's release, without reading or modifying any
header field (its behavior is independent of the header content stored at
the pointer, and it touches neither the task nor the tracker); task-local
free hands the pointer to the task's boxed heap without verifying the
header's ref count or its provenance (its behavior too is independent of
the header content). -/
theorem free_paths_unchecked (s : RuntimeState) (p : Nat)
    (b1 b2 : rust_opaque_box) :
    upcall_exchange_free { s with kernel := s.kernel.setBox p b1 } p =
      upcall_exchange_free { s with kernel := s.kernel.setBox p b2 } p ∧
    (upcall_exchange_free s p).kernel = s.kernel.free p ∧
    (upcall_exchange_free s p).task = s.task ∧
    (upcall_exchange_free s p).tracker_events = s.tracker_events ∧
    upcall_free
        { s with task := { s.task with boxed := s.task.boxed.setBox p b1 } }
        p =
      upcall_free
        { s with task := { s.task with boxed := s.task.boxed.setBox p b2 } }
        p := by
  refine ⟨?_, rfl, rfl, rfl, ?_⟩
  · simp [upcall_exchange_free, upcall_s_exchange_free, UPCALL_SWITCH_STACK,
      rust_kernel.free, rust_kernel.setBox, removeFirst_setBoxFirst]
  · simp [upcall_free, upcall_s_free, UPCALL_SWITCH_STACK,
      maybe_untrack_origin, boxed_region.free, boxed_region.setBox,
      removeFirst_setBoxFirst]

/-- Claim C9: for every requested size and argument block, growing the
guest stack and then immediately shrinking it restores the previous chain
of frame bases (and hence the previous frame base address) exactly, and
neither the grow entry point nor the shrink entry point performs a stack
switch. -/
theorem new_stack_del_stack_spec (s : RuntimeState)
    (stk_sz args_addr args_sz : Nat) :
    (upcall_del_stack
        (upcall_new_stack s stk_sz args_addr args_sz).1).task.frames =
      s.task.frames ∧
    (upcall_new_stack s stk_sz args_addr args_sz).1.switch_count =
      s.switch_count ∧
    (upcall_del_stack
        (upcall_new_stack s stk_sz args_addr args_sz).1).switch_count =
      s.switch_count :=
  ⟨rfl, rfl, rfl⟩

/-- Claim C10: for every input, the box-validation upcall and the
type-logging upcall abort unconditionally and never return normally; they
perform no other action on their arguments or the state. -/
theorem validate_box_log_type_abort (s : RuntimeState)
    (p tydesc data level : Nat) :
    upcall_validate_box s p = (s, UpcallOutcome.aborted) ∧
    upcall_log_type s tydesc data level = (s, UpcallOutcome.aborted) :=
  ⟨rfl, rfl⟩

end RustUpcall
